import Mathlib

/-!
Verification of the Multibot media-analysis pipeline.

This file gives a shallow embedding of the behaviourally relevant parts of
the repository (the vision aggregation pipeline in
`bot/services/vision_service.py`, the upload handler in `bot/handlers.py`,
and the search adapters in `bot/services/youtube_service.py` and
`bot/services/tmdb_service.py`), followed by theorems settling the spec
claims about them.

Modelling conventions:
- Python strings are Lean `String`s; `s[:n]` is `pySlice`, `s.strip()` is
  `pyStrip` (whitespace per `Char.isWhitespace`), `s.replace(c, "")` is
  `removeChar`.
- A call to an external backend is modelled by its outcome: `none` means the
  call raised an exception, `some v` means it returned `v`.  Outcomes are
  deterministic per input (retrying a call on the same media yields the same
  outcome).
- Code that can raise to its caller returns `Option`/`Except`; code that
  catches all exceptions is a total function.
-/

/-- Python `s[:n]`: the first `n` code points of `s`. -/
def pySlice (s : String) (n : Nat) : String := String.mk (s.data.take n)

/-- Python `s.strip()`: drop whitespace from both ends. -/
def pyStrip (s : String) : String :=
  String.mk (((s.data.dropWhile Char.isWhitespace).reverse.dropWhile
    Char.isWhitespace).reverse)

/-- Python `s.replace(c, "")` for a single character `c`: remove every
occurrence of `c`. -/
def removeChar (s : String) (c : Char) : String :=
  String.mk (s.data.filter (fun d => decide (d ≠ c)))

namespace VisionService

/-!
Embedding of `VisionService` (`bot/services/vision_service.py`).

`GoogleVisionResponses` holds the outcome of the five independent detector
calls made by `_analyze_with_google_vision`; for each detector, `none` means
the detector call raised (the Python code logs and swallows the exception),
and `some` carries the annotation list the API returned (for faces, only the
number of face annotations matters to the code).
-/

structure GoogleVisionResponses where
  labels : Option (List String)
  texts : Option (List String)
  faces : Option Nat
  landmarks : Option (List String)
  logos : Option (List String)

/-- The label-detection block: up to five `label_annotations` descriptions,
or no line when the list is empty or the call raised. -/
def labelLine (r : Option (List String)) : Option String :=
  match r with
  | none => none
  | some ls =>
    if ls = [] then none
    else some ("**Objects Detected:** " ++ String.intercalate ", " (ls.take 5))

/-- The text-detection (OCR) block: the first annotation's description,
stripped; included only when non-empty and longer than 3 characters, and
truncated to 200 characters with an ellipsis when longer than 200. -/
def textLine (r : Option (List String)) : Option String :=
  match r with
  | none => none
  | some [] => none
  | some (t :: _) =>
    let detected := pyStrip t
    if detected ≠ "" ∧ detected.length > 3 then
      some ("**Text Found:** " ++
        (if detected.length > 200 then pySlice detected 200 ++ "..." else detected))
    else none

/-- The face-detection block: the number of `face_annotations`, omitted when
there are none or the call raised. -/
def faceLine (r : Option Nat) : Option String :=
  match r with
  | none => none
  | some n => if n = 0 then none else some ("**Faces Detected:** " ++ toString n)

/-- The landmark-detection block: up to three landmark descriptions. -/
def landmarkLine (r : Option (List String)) : Option String :=
  match r with
  | none => none
  | some ls =>
    if ls = [] then none
    else some ("**Landmarks:** " ++ String.intercalate ", " (ls.take 3))

/-- The logo-detection block: up to three logo descriptions. -/
def logoLine (r : Option (List String)) : Option String :=
  match r with
  | none => none
  | some ls =>
    if ls = [] then none
    else some ("**Logos:** " ++ String.intercalate ", " (ls.take 3))

/-- Merge the per-detector blocks: join the present lines with newlines, or
return the empty string when no detector contributed. -/
def joinFindings (lines : List (Option String)) : String :=
  let rs := lines.filterMap id
  if rs = [] then "" else String.intercalate "\n" rs

/-- Body of `_analyze_with_google_vision` after the image was read: run the
five detector blocks and merge their lines. -/
def analyzeWithGoogleVisionCore (r : GoogleVisionResponses) : String :=
  joinFindings [labelLine r.labels, textLine r.texts, faceLine r.faces,
    landmarkLine r.landmarks, logoLine r.logos]

/-- `_analyze_with_google_vision`: the outer try/except returns the empty
string when reading the image or the analysis as a whole raised (`none`). -/
def analyzeWithGoogleVision (call : Option GoogleVisionResponses) : String :=
  match call with
  | none => ""
  | some r => analyzeWithGoogleVisionCore r

/-- The fixed fallback message of `analyze_image`. -/
def IMAGE_FALLBACK : String := "Unable to analyze the image. Please try again later."

/-- The fixed fallback message of `analyze_video`. -/
def VIDEO_FALLBACK : String := "Unable to analyze the video. Please try again later."

/-- `_analyze_with_combined_vision`: combine the structured findings with the
Gemini narrative.  `gemini = none` models the Gemini call raising; the except
branch then retries Gemini alone, which (outcomes being deterministic per
image) raises again, so the whole call raises (`none`). -/
def analyzeWithCombinedVision (vision : Option GoogleVisionResponses)
    (gemini : Option String) : Option String :=
  match gemini with
  | none => none
  | some g =>
    let v := analyzeWithGoogleVision vision
    if v ≠ "" ∧ g ≠ "" then some (v ++ "\n\n**AI Analysis:**\n" ++ g)
    else if v ≠ "" then some v
    else some g

/-- `analyze_image`: combined analysis when the Vision client is available,
Gemini alone otherwise; on an exception, retry Gemini alone and fall back to
the fixed message.  Total: it never raises to its caller. -/
def analyze_image (visionAvailable : Bool) (vision : Option GoogleVisionResponses)
    (gemini : Option String) : String :=
  let firstTry : Option String :=
    if visionAvailable then analyzeWithCombinedVision vision gemini else gemini
  match firstTry with
  | some s => s
  | none =>
    match gemini with
    | some s => s
    | none => IMAGE_FALLBACK

/-- `analyze_video`: Gemini only (the Vision API has no video support); on an
exception, the fixed video fallback message.  Total: never raises. -/
def analyze_video (gemini : Option String) : String :=
  match gemini with
  | some s => s
  | none => VIDEO_FALLBACK

end VisionService

namespace VisionService

/-- A concrete detector response set used to instantiate hypotheses. -/
def sampleResponses : GoogleVisionResponses :=
  ⟨some ["cat", "animal"], none, some 0, none, none⟩

end VisionService

open VisionService in
/-- C1: if the structured-vision backend returns a non-empty findings string
and the generative backend returns non-empty narrative text, `analyze_image`
returns the structured findings first, then the narrative text under the
heading `**AI Analysis:**`. -/
theorem c1_combined_concatenation (r : GoogleVisionResponses) (g : String)
    (hv : analyzeWithGoogleVisionCore r ≠ "") (hg : g ≠ "") :
    analyze_image true (some r) (some g) =
      analyzeWithGoogleVisionCore r ++ "\n\n**AI Analysis:**\n" ++ g := by
  simp [analyze_image, analyzeWithCombinedVision, analyzeWithGoogleVision, hv, hg]

open VisionService in
/-- Witness for C1 at a concrete detector response and narrative. -/
theorem c1_combined_concatenation_witness :
    analyze_image true (some sampleResponses) (some "A small cat.") =
      "**Objects Detected:** cat, animal\n\n**AI Analysis:**\nA small cat." :=
  c1_combined_concatenation sampleResponses "A small cat." (by decide) (by decide)

open VisionService in
/-- C2 counterexample: with both backends failing, the image aggregator and
the video aggregator do not return the same fixed fallback string (the image
message says "image", the video message says "video"). -/
theorem c2_fallback_strings_differ :
    analyze_image true none none ≠ analyze_video none := by decide

open VisionService in
/-- C2 (amended): when the generative backend fails (and hence, whatever the
structured backend did, no analysis is produced), `analyze_image` returns
exactly the fixed image fallback message and `analyze_video` returns exactly
the fixed video fallback message; both are total functions, so no exception
reaches the caller. -/
theorem c2_fixed_fallback_per_kind (va : Bool) (vision : Option GoogleVisionResponses) :
    analyze_image va vision none = "Unable to analyze the image. Please try again later." ∧
    analyze_video none = "Unable to analyze the video. Please try again later." := by
  constructor
  · cases va <;> simp [analyze_image, analyzeWithCombinedVision, IMAGE_FALLBACK]
  · rfl

open VisionService in
/-- C3: when the structured-vision call raises (modelled as outcome `none`,
which `_analyze_with_google_vision` swallows, returning the empty string)
while Gemini succeeds, `analyze_image` returns exactly the Gemini narrative,
which is exactly what the Gemini-only path returns; no error is surfaced. -/
theorem c3_vision_failure_equals_gemini_only (g : String) :
    analyze_image true none (some g) = g ∧
    analyze_image false none (some g) = g := by
  constructor
  · simp [analyze_image, analyzeWithCombinedVision, analyzeWithGoogleVision]
  · simp [analyze_image]

/-- Removing a failed attempt (a `none`) anywhere in a list of optional
results does not change the merged successes. -/
theorem filterMap_id_middle {α : Type} (l₁ l₂ : List (Option α)) :
    List.filterMap id (l₁ ++ none :: l₂) = List.filterMap id (l₁ ++ l₂) := by
  induction l₁ with
  | nil => simp
  | cons a t ih => cases a <;> simp_all

/-- The merged findings only depend on the successful detector lines. -/
theorem joinFindings_congr (l₁ l₂ : List (Option String))
    (h : l₁.filterMap id = l₂.filterMap id) :
    VisionService.joinFindings l₁ = VisionService.joinFindings l₂ := by
  simp [VisionService.joinFindings, h]

open VisionService in
/-- C4: the five detectors are independent: a failed detector (outcome
`none`) only omits its own line, leaving the lines of the other four
detectors exactly as they would otherwise be; and the contributed lines
carry at most 5 labels, OCR text truncated to 200 characters (plus the
3-character ellipsis, under the 16-character prefix, so at most 219
characters in the line), the face count, at most 3 landmark names and at
most 3 logo names. -/
theorem c4_detector_independence_and_caps (la tx : Option (List String))
    (fa : Option Nat) (lm lo : Option (List String)) :
    (analyzeWithGoogleVisionCore ⟨none, tx, fa, lm, lo⟩ =
      joinFindings [textLine tx, faceLine fa, landmarkLine lm, logoLine lo]) ∧
    (analyzeWithGoogleVisionCore ⟨la, none, fa, lm, lo⟩ =
      joinFindings [labelLine la, faceLine fa, landmarkLine lm, logoLine lo]) ∧
    (analyzeWithGoogleVisionCore ⟨la, tx, none, lm, lo⟩ =
      joinFindings [labelLine la, textLine tx, landmarkLine lm, logoLine lo]) ∧
    (analyzeWithGoogleVisionCore ⟨la, tx, fa, none, lo⟩ =
      joinFindings [labelLine la, textLine tx, faceLine fa, logoLine lo]) ∧
    (analyzeWithGoogleVisionCore ⟨la, tx, fa, lm, none⟩ =
      joinFindings [labelLine la, textLine tx, faceLine fa, landmarkLine lm]) ∧
    (∀ ls : List String, ls ≠ [] →
      labelLine (some ls) =
        some ("**Objects Detected:** " ++ String.intercalate ", " (ls.take 5)) ∧
      (ls.take 5).length ≤ 5) ∧
    (∀ t rest s, textLine (some (t :: rest)) = some s →
      s = "**Text Found:** " ++
        (if (pyStrip t).length > 200 then pySlice (pyStrip t) 200 ++ "..."
         else pyStrip t) ∧
      s.length ≤ 219) ∧
    (∀ n : Nat, n ≠ 0 →
      faceLine (some n) = some ("**Faces Detected:** " ++ toString n)) ∧
    (∀ ls : List String, ls ≠ [] →
      landmarkLine (some ls) =
        some ("**Landmarks:** " ++ String.intercalate ", " (ls.take 3)) ∧
      (ls.take 3).length ≤ 3) ∧
    (∀ ls : List String, ls ≠ [] →
      logoLine (some ls) =
        some ("**Logos:** " ++ String.intercalate ", " (ls.take 3)) ∧
      (ls.take 3).length ≤ 3) := by
  refine ⟨?_, ?_, ?_, ?_, ?_, ?_, ?_, ?_, ?_, ?_⟩
  · exact joinFindings_congr _ _ (filterMap_id_middle [] _)
  · exact joinFindings_congr _ _ (filterMap_id_middle [labelLine la] _)
  · exact joinFindings_congr _ _ (filterMap_id_middle [labelLine la, textLine tx] _)
  · exact joinFindings_congr _ _
      (filterMap_id_middle [labelLine la, textLine tx, faceLine fa] _)
  · exact joinFindings_congr _ _
      (filterMap_id_middle [labelLine la, textLine tx, faceLine fa, landmarkLine lm] _)
  · intro ls h
    refine ⟨?_, List.length_take_le 5 ls⟩
    show (if ls = [] then none else some _) = _
    rw [if_neg h]
  · intro t rest s h
    have hred : textLine (some (t :: rest)) =
        (if pyStrip t ≠ "" ∧ (pyStrip t).length > 3 then
          some ("**Text Found:** " ++
            (if (pyStrip t).length > 200 then pySlice (pyStrip t) 200 ++ "..."
             else pyStrip t))
        else none) := rfl
    rw [hred] at h
    by_cases hc : pyStrip t ≠ "" ∧ (pyStrip t).length > 3
    · rw [if_pos hc] at h
      have hs := (Option.some.injEq _ _).mp h
      refine ⟨hs.symm, ?_⟩
      rw [← hs, String.length_append]
      have hpre : ("**Text Found:** " : String).length = 16 := by decide
      by_cases h200 : (pyStrip t).length > 200
      · rw [if_pos h200, String.length_append]
        have h1 : (pySlice (pyStrip t) 200).length ≤ 200 :=
          List.length_take_le 200 (pyStrip t).data
        have h2 : ("..." : String).length = 3 := by decide
        omega
      · rw [if_neg h200]
        omega
    · rw [if_neg hc] at h
      exact absurd h (by simp)
  · intro n h
    show (if n = 0 then none else some _) = _
    rw [if_neg h]
  · intro ls h
    refine ⟨?_, List.length_take_le 3 ls⟩
    show (if ls = [] then none else some _) = _
    rw [if_neg h]
  · intro ls h
    refine ⟨?_, List.length_take_le 3 ls⟩
    show (if ls = [] then none else some _) = _
    rw [if_neg h]

open VisionService in
/-- Witness for C4 at concrete detector outcomes, discharging each
hypothesis: a response with a failed label detector and non-trivial
remaining detectors, and concrete non-empty annotation lists. -/
theorem c4_detector_independence_and_caps_witness :
    (analyzeWithGoogleVisionCore ⟨none, some ["hello there"], some 2,
        some ["Eiffel Tower"], some []⟩ =
      joinFindings [textLine (some ["hello there"]), faceLine (some 2),
        landmarkLine (some ["Eiffel Tower"]), logoLine (some [])]) ∧
    (labelLine (some ["a", "b", "c", "d", "e", "f"]) =
      some ("**Objects Detected:** " ++
        String.intercalate ", " (["a", "b", "c", "d", "e", "f"].take 5))) ∧
    ("**Text Found:** hello there" : String).length ≤ 219 ∧
    (faceLine (some 2) = some ("**Faces Detected:** " ++ toString 2)) ∧
    (landmarkLine (some ["Eiffel Tower"]) =
      some ("**Landmarks:** " ++ String.intercalate ", " (["Eiffel Tower"].take 3))) ∧
    (logoLine (some ["x"]) =
      some ("**Logos:** " ++ String.intercalate ", " (["x"].take 3))) := by
  refine ⟨?_, ?_, ?_, ?_, ?_, ?_⟩
  · exact (c4_detector_independence_and_caps none (some ["hello there"]) (some 2)
      (some ["Eiffel Tower"]) (some [])).1
  · exact ((c4_detector_independence_and_caps (some ["a", "b", "c", "d", "e", "f"])
      none none none none).2.2.2.2.2.1 _ (by decide)).1
  · exact ((c4_detector_independence_and_caps none (some ["hello there"]) none none
      none).2.2.2.2.2.2.1 "hello there" [] "**Text Found:** hello there" (by decide)).2
  · exact (c4_detector_independence_and_caps none none (some 2) none
      none).2.2.2.2.2.2.2.1 2 (by decide)
  · exact ((c4_detector_independence_and_caps none none none (some ["Eiffel Tower"])
      none).2.2.2.2.2.2.2.2.1 _ (by decide)).1
  · exact ((c4_detector_independence_and_caps none none none none
      (some ["x"])).2.2.2.2.2.2.2.2.2 _ (by decide)).1

open VisionService in
/-- C10: when the text detector succeeds with a first annotation `t`, its OCR
line is included in the findings iff the stripped text is strictly longer
than 3 characters; shorter results are silently omitted. -/
theorem c10_ocr_length_gate (t : String) (rest : List String) :
    textLine (some (t :: rest)) ≠ none ↔ (pyStrip t).length > 3 := by
  show (if pyStrip t ≠ "" ∧ (pyStrip t).length > 3 then
      some ("**Text Found:** " ++
        (if (pyStrip t).length > 200 then pySlice (pyStrip t) 200 ++ "..." else pyStrip t))
    else none) ≠ none ↔ (pyStrip t).length > 3
  constructor
  · intro hne
    by_contra hc
    rw [if_neg (fun hand => hc hand.2)] at hne
    exact hne rfl
  · intro hgt
    have hne : pyStrip t ≠ "" := fun he => absurd (he ▸ hgt) (by decide)
    rw [if_pos ⟨hne, hgt⟩]
    exact fun h => Option.noConfusion h

namespace Handlers

/-!
Embedding of the upload handler `vision_handler` (`bot/handlers.py`).
-/

/-- Remove the four Markdown-breaking characters, in the order the handler
applies its four `replace` calls. -/
def stripMarkdownChars (s : String) : String :=
  removeChar (removeChar (removeChar (removeChar s '*') '_') '[') ']'

/-- The display transformation `vision_handler` applies to a non-empty
analysis string: truncate the raw string to 3800 characters appending an
ellipsis when longer, then remove the markup characters. -/
def displayAnalysis (analysis : String) : String :=
  stripMarkdownChars
    (if analysis.length > 3800 then pySlice analysis 3800 ++ "..." else analysis)

/-- Check that a string has none of the four markup characters. -/
def noMarkupChars (s : String) : Bool :=
  s.data.all (fun c =>
    decide (c ≠ '*') && decide (c ≠ '_') && decide (c ≠ '[') && decide (c ≠ ']'))

end Handlers

/-- A removed character does not occur in the output of its removal. -/
theorem not_mem_removeChar (s : String) (c : Char) : c ∉ (removeChar s c).data := by
  intro h
  have := (List.mem_filter.mp h).2
  simp at this

/-- Membership in a removal output implies membership in its input. -/
theorem mem_of_mem_removeChar {s : String} {b : Char} (c : Char)
    (h : b ∈ (removeChar s c).data) : b ∈ s.data :=
  (List.mem_filter.mp h).1

/-- Character removal distributes over concatenation. -/
theorem removeChar_append (a b : String) (c : Char) :
    removeChar (a ++ b) c = removeChar a c ++ removeChar b c := by
  cases a with
  | mk la =>
    cases b with
    | mk lb =>
      show String.mk ((la ++ lb).filter _) = String.mk (la.filter _ ++ lb.filter _)
      rw [List.filter_append]

/-- The markup-stripping pass distributes over concatenation. -/
theorem stripMarkdownChars_append (a b : String) :
    Handlers.stripMarkdownChars (a ++ b) =
      Handlers.stripMarkdownChars a ++ Handlers.stripMarkdownChars b := by
  unfold Handlers.stripMarkdownChars
  rw [removeChar_append, removeChar_append, removeChar_append, removeChar_append]

/-- The output of the markup-stripping pass contains none of the four
markup characters. -/
theorem noMarkupChars_stripMarkdownChars (s : String) :
    Handlers.noMarkupChars (Handlers.stripMarkdownChars s) = true := by
  unfold Handlers.noMarkupChars
  rw [List.all_eq_true]
  intro c hc
  have hc4 : c ∈ List.filter (fun d => decide (d ≠ ']'))
      (removeChar (removeChar (removeChar s '*') '_') '[').data := hc
  have h4 := (List.mem_filter.mp hc4).2
  have hc3 := (List.mem_filter.mp hc4).1
  have hc3' : c ∈ List.filter (fun d => decide (d ≠ '['))
      (removeChar (removeChar s '*') '_').data := hc3
  have h3 := (List.mem_filter.mp hc3').2
  have hc2 := (List.mem_filter.mp hc3').1
  have hc2' : c ∈ List.filter (fun d => decide (d ≠ '_')) (removeChar s '*').data := hc2
  have h2 := (List.mem_filter.mp hc2').2
  have hc1 := (List.mem_filter.mp hc2').1
  have hc1' : c ∈ List.filter (fun d => decide (d ≠ '*')) s.data := hc1
  have h1 := (List.mem_filter.mp hc1').2
  simp only [decide_eq_true_eq] at h1 h2 h3 h4
  simp [h1, h2, h3, h4]

/-- The markup-stripped display text never contains an asterisk. -/
theorem star_not_mem_displayAnalysis (s : String) :
    '*' ∉ (Handlers.displayAnalysis s).data := by
  intro h
  have h4 : '*' ∈ (removeChar (removeChar (removeChar
      (if s.length > 3800 then pySlice s 3800 ++ "..." else s) '*') '_') '[').data :=
    mem_of_mem_removeChar ']' h
  have h3 := mem_of_mem_removeChar '[' h4
  have h2 := mem_of_mem_removeChar '_' h3
  exact not_mem_removeChar _ '*' h2

/-- The C5 counterexample input: an asterisk followed by 3800 letters. -/
def c5Bad : String := String.mk ('*' :: List.replicate 3800 'a')

/-- A 3801-character input without markup characters. -/
def c5Long : String := String.mk (List.replicate 3801 'b')

/-- C5 counterexample: for the 3801-character input starting with an
asterisk, the displayed text is NOT the first 3800 characters plus an
ellipsis — the handler truncates first and only then strips the markup
characters, so the leading asterisk of the first 3800 characters is gone. -/
theorem c5_truncation_counterexample :
    Handlers.displayAnalysis c5Bad ≠ pySlice c5Bad 3800 ++ "..." := by
  intro heq
  have hmem : '*' ∈ (pySlice c5Bad 3800 ++ "...").data := by
    apply List.mem_append_left
    show '*' ∈ (('*' :: List.replicate 3800 'a').take 3800)
    rw [show (3800 : Nat) = 3799 + 1 from rfl, List.take_succ_cons]
    exact List.mem_cons_self _ _
  rw [← heq] at hmem
  exact star_not_mem_displayAnalysis _ hmem

/-- C5 (amended): the handler truncates the raw analysis first and strips
markup afterwards: an input of at most 3800 characters is only stripped
(no truncation), an input longer than 3800 characters is displayed as the
markup-stripped first 3800 characters followed by the ellipsis marker, and
the displayed text never contains one of the four markup characters. -/
theorem c5_truncate_then_strip (s : String) :
    (s.length ≤ 3800 → Handlers.displayAnalysis s = Handlers.stripMarkdownChars s) ∧
    (s.length > 3800 →
      Handlers.displayAnalysis s =
        Handlers.stripMarkdownChars (pySlice s 3800) ++ "...") ∧
    Handlers.noMarkupChars (Handlers.displayAnalysis s) = true := by
  refine ⟨?_, ?_, ?_⟩
  · intro h
    unfold Handlers.displayAnalysis
    rw [if_neg (not_lt.mpr h)]
  · intro h
    unfold Handlers.displayAnalysis
    rw [if_pos h, stripMarkdownChars_append,
      show Handlers.stripMarkdownChars "..." = "..." from rfl]
  · exact noMarkupChars_stripMarkdownChars _

/-- Witness for C5 (amended): a short marked-up input is only stripped, and
the 3801-character input is truncated with the ellipsis appended. -/
theorem c5_truncate_then_strip_witness :
    Handlers.displayAnalysis "a*b_c" = Handlers.stripMarkdownChars "a*b_c" ∧
    Handlers.displayAnalysis c5Long =
      Handlers.stripMarkdownChars (pySlice c5Long 3800) ++ "..." := by
  constructor
  · exact (c5_truncate_then_strip "a*b_c").1 (by decide)
  · refine (c5_truncate_then_strip c5Long).2.1 ?_
    show 3800 < (List.replicate 3801 'b').length
    rw [List.length_replicate]
    omega

namespace Handlers

/-- Kind of inbound media the handler recognises. -/
inductive FileType
  | image
  | video
deriving DecidableEq

/-- Python `file_type.title()`. -/
def fileTypeTitle : FileType → String
  | .image => "Image"
  | .video => "Video"

/-- The user-visible reply the handler produces. -/
inductive Reply
  | unableToProcess
  | photoSent
  | removeBgFailed
  | videoNotSupported
  | analysisText (s : String)
  | unableToAnalyze (ft : FileType)
  | errorReply
deriving DecidableEq

/-- True for the replies of the general-analysis path. -/
def isAnalysisReply : Reply → Bool
  | .analysisText _ => true
  | .unableToAnalyze _ => true
  | _ => false

/-- Environment of one `vision_handler` run: the message, the conversation
flag, and the outcome of each external effect.  For calls that may raise,
`false`/`none` models the call raising an exception.
`removebgOutcome`: `none` = the remove-background call raised, `some none` =
it returned `None`, `some (some ())` = it produced a result file. -/
structure HandlerEnv where
  fileType : Option FileType
  captionHasRemovebg : Bool
  waitingForRemovebg : Bool
  downloadOk : Bool
  removebgOutcome : Option (Option Unit)
  sendPhotoOk : Bool
  analysisReplyOk : Bool
  analysisResult : String

/-- Observable outcome of one `vision_handler` run: which files were created
and deleted, the conversation flag afterwards, and the reply sent. -/
structure HandlerOutcome where
  tempFileCreated : Bool
  tempFileDeleted : Bool
  resultFileCreated : Bool
  resultFileDeleted : Bool
  waitingAfter : Bool
  reply : Reply

/-- One run of `vision_handler`.  The inner `try`/`finally` deletes the
downloaded temp file whenever the body is reached; the `pop` of the waiting
flag runs only when the gated branch completes without an exception; the
result file is unlinked only after a successful `send_photo`.  The outer
`except` converts any escaped exception into the error-template reply. -/
def vision_handler (env : HandlerEnv) : HandlerOutcome :=
  match env.fileType with
  | none =>
    -- no photo and no video: reply and return before any download
    ⟨false, false, false, false, env.waitingForRemovebg, .unableToProcess⟩
  | some ft =>
    if env.downloadOk = false then
      -- download_to_drive raised inside the NamedTemporaryFile block: the
      -- temp file exists but the try/finally was never entered, so it leaks
      ⟨true, false, false, false, env.waitingForRemovebg, .errorReply⟩
    else if env.captionHasRemovebg || env.waitingForRemovebg then
      match ft with
      | .image =>
        match env.removebgOutcome with
        | none =>
          -- remove_background raised: finally deletes the temp file, the
          -- flag pop is skipped, the outer except sends the error template
          ⟨true, true, false, false, env.waitingForRemovebg, .errorReply⟩
        | some none =>
          ⟨true, true, false, false, false, .removeBgFailed⟩
        | some (some _) =>
          if env.sendPhotoOk then
            ⟨true, true, true, true, false, .photoSent⟩
          else
            -- send_photo raised: os.unlink(result_path) and the flag pop
            -- are both skipped
            ⟨true, true, true, false, env.waitingForRemovebg, .errorReply⟩
      | .video =>
        ⟨true, true, false, false, false, .videoNotSupported⟩
    else
      if env.analysisResult ≠ "" then
        if env.analysisReplyOk then
          ⟨true, true, false, false, env.waitingForRemovebg,
            .analysisText ("👁️ " ++ fileTypeTitle ft ++ " Analysis:\n\n" ++
              displayAnalysis env.analysisResult)⟩
        else
          -- reply_text raised: finally deletes the temp file, outer except
          ⟨true, true, false, false, env.waitingForRemovebg, .errorReply⟩
      else
        ⟨true, true, false, false, env.waitingForRemovebg, .unableToAnalyze ft⟩

/-- Environment of the C7 counterexample: the flag is armed, an image is
uploaded, and the remove-background call raises. -/
def c7Env : HandlerEnv :=
  ⟨some .image, false, true, true, none, true, true, "x"⟩

/-- Environment of the C9 counterexample: a gated image upload whose
background removal succeeds but whose `send_photo` reply raises. -/
def c9Env : HandlerEnv :=
  ⟨some .image, false, true, true, some (some ()), false, true, "x"⟩

end Handlers

open Handlers in
/-- C7 counterexample: with the awaiting-background-removal flag armed and an
image uploaded (a gated upload), the remove-background call raising leaves
the flag still set — the flag is not cleared after this gated upload. -/
theorem c7_flag_survives_exception :
    (c7Env.captionHasRemovebg || c7Env.waitingForRemovebg) = true ∧
    (vision_handler c7Env).waitingAfter = true := by
  constructor <;> rfl

open Handlers in
/-- C7 (amended): the flag gates whether the next upload is processed as a
background-removal request rather than a general analysis, and it is cleared
after one gated upload provided the gated branch completes without an
exception; if the remove-background call or the result send raises, the
flag is left set.  An un-gated upload is processed as general analysis and
leaves the flag cleared. -/
theorem c7_flag_gating_and_clearing (env : HandlerEnv) (ft : FileType) :
    (env.fileType = some ft → env.downloadOk = true →
      (env.captionHasRemovebg || env.waitingForRemovebg) = true →
      isAnalysisReply (vision_handler env).reply = false) ∧
    (env.fileType = some ft → env.downloadOk = true →
      env.captionHasRemovebg = false → env.waitingForRemovebg = false →
      env.analysisReplyOk = true →
      isAnalysisReply (vision_handler env).reply = true) ∧
    (env.fileType = some FileType.video → env.downloadOk = true →
      (env.captionHasRemovebg || env.waitingForRemovebg) = true →
      (vision_handler env).waitingAfter = false) ∧
    (env.fileType = some FileType.image → env.downloadOk = true →
      (env.captionHasRemovebg || env.waitingForRemovebg) = true →
      env.removebgOutcome = some none →
      (vision_handler env).waitingAfter = false) ∧
    (env.fileType = some FileType.image → env.downloadOk = true →
      (env.captionHasRemovebg || env.waitingForRemovebg) = true →
      env.removebgOutcome = some (some ()) → env.sendPhotoOk = true →
      (vision_handler env).waitingAfter = false) ∧
    (env.fileType = some FileType.image → env.downloadOk = true →
      (env.captionHasRemovebg || env.waitingForRemovebg) = true →
      env.removebgOutcome = none →
      (vision_handler env).waitingAfter = env.waitingForRemovebg) := by
  obtain ⟨oft, cap, wait, dl, rbg, send, arep, ares⟩ := env
  refine ⟨?_, ?_, ?_, ?_, ?_, ?_⟩
  · intro h1 h2 h3
    subst h1; subst h2
    cases ft <;> rcases rbg with _ | _ | _ <;> cases send <;>
      simp_all [vision_handler, isAnalysisReply]
  · intro h1 h2 h3 h4 h5
    subst h1; subst h2; subst h3; subst h4; subst h5
    cases ft <;> simp [vision_handler] <;> split <;> simp [isAnalysisReply]
  · intro h1 h2 h3
    subst h1; subst h2
    simp_all [vision_handler]
  · intro h1 h2 h3 h4
    subst h1; subst h2; subst h4
    simp_all [vision_handler]
  · intro h1 h2 h3 h4 h5
    subst h1; subst h2; subst h4; subst h5
    simp_all [vision_handler]
  · intro h1 h2 h3 h4
    subst h1; subst h2; subst h4
    simp_all [vision_handler]

open Handlers in
/-- Witness for C7 (amended) at concrete environments: a gated upload is not
analysed; an un-gated upload is analysed; a cleanly completed gated upload
(successful removal and send) clears the flag. -/
theorem c7_flag_gating_and_clearing_witness :
    isAnalysisReply (vision_handler ⟨some .image, false, true, true,
      some (some ()), true, true, "x"⟩).reply = false ∧
    isAnalysisReply (vision_handler ⟨some .image, false, false, true,
      some (some ()), true, true, "x"⟩).reply = true ∧
    (vision_handler ⟨some .video, false, true, true, none, true, true,
      "x"⟩).waitingAfter = false ∧
    (vision_handler ⟨some .image, false, true, true, some none, true, true,
      "x"⟩).waitingAfter = false ∧
    (vision_handler ⟨some .image, false, true, true, some (some ()), true,
      true, "x"⟩).waitingAfter = false ∧
    (vision_handler ⟨some .image, false, true, true, none, true, true,
      "x"⟩).waitingAfter = true := by
  refine ⟨?_, ?_, ?_, ?_, ?_, ?_⟩
  · exact (c7_flag_gating_and_clearing
      ⟨some .image, false, true, true, some (some ()), true, true, "x"⟩
      FileType.image).1 rfl rfl rfl
  · exact (c7_flag_gating_and_clearing
      ⟨some .image, false, false, true, some (some ()), true, true, "x"⟩
      FileType.image).2.1 rfl rfl rfl rfl rfl
  · exact (c7_flag_gating_and_clearing
      ⟨some .video, false, true, true, none, true, true, "x"⟩
      FileType.video).2.2.1 rfl rfl rfl
  · exact (c7_flag_gating_and_clearing
      ⟨some .image, false, true, true, some none, true, true, "x"⟩
      FileType.image).2.2.2.1 rfl rfl rfl rfl
  · exact (c7_flag_gating_and_clearing
      ⟨some .image, false, true, true, some (some ()), true, true, "x"⟩
      FileType.image).2.2.2.2.1 rfl rfl rfl rfl rfl
  · exact (c7_flag_gating_and_clearing
      ⟨some .image, false, true, true, none, true, true, "x"⟩
      FileType.image).2.2.2.2.2 rfl rfl rfl rfl

open Handlers in
/-- C9 counterexample: on a gated image upload where background removal
produced a result file and the `send_photo` reply raises, the result file is
created but never deleted — not every temporary file is deleted on every
exit path. -/
theorem c9_result_file_leak :
    (vision_handler c9Env).resultFileCreated = true ∧
    (vision_handler c9Env).resultFileDeleted = false := by
  constructor <;> rfl

set_option maxHeartbeats 1000000 in
open Handlers in
/-- C9 (amended): once the download has completed, the downloaded temp file
is deleted on every exit path of the handler (including adapter or reply
exceptions); the background-removal result file, however, is deleted exactly
when it was created and the photo send succeeded — and when the download
itself raises, the created temp file is never deleted. -/
theorem c9_temp_file_cleanup (env : HandlerEnv) (ft : FileType) :
    (env.fileType = some ft → env.downloadOk = true →
      (vision_handler env).tempFileCreated = true ∧
      (vision_handler env).tempFileDeleted = true) ∧
    (env.fileType = some ft → env.downloadOk = false →
      (vision_handler env).tempFileCreated = true ∧
      (vision_handler env).tempFileDeleted = false) ∧
    ((vision_handler env).resultFileDeleted = true ↔
      (vision_handler env).resultFileCreated = true ∧ env.sendPhotoOk = true) := by
  obtain ⟨oft, cap, wait, dl, rbg, send, arep, ares⟩ := env
  refine ⟨?_, ?_, ?_⟩
  · intro h1 h2
    subst h1; subst h2
    cases cap <;> cases wait <;> cases ft <;> rcases rbg with _ | _ | _ <;>
      simp only [vision_handler] <;> (repeat' split) <;> simp_all
  · intro h1 h2
    subst h1; subst h2
    simp [vision_handler]
  · cases oft with
    | none => simp [vision_handler]
    | some ft2 =>
      cases dl <;> cases cap <;> cases wait <;> cases ft2 <;>
        rcases rbg with _ | _ | _ <;>
        simp only [vision_handler] <;> (repeat' split) <;> simp_all

open Handlers in
/-- Witness for C9 (amended) at concrete environments: a completed analysis
run deletes the temp file; a failed download leaks it; a successful send
deletes the result file. -/
theorem c9_temp_file_cleanup_witness :
    ((vision_handler ⟨some .image, false, false, true, none, true, true,
      "x"⟩).tempFileCreated = true ∧
     (vision_handler ⟨some .image, false, false, true, none, true, true,
      "x"⟩).tempFileDeleted = true) ∧
    ((vision_handler ⟨some .video, false, false, false, none, true, true,
      "x"⟩).tempFileCreated = true ∧
     (vision_handler ⟨some .video, false, false, false, none, true, true,
      "x"⟩).tempFileDeleted = false) := by
  constructor
  · exact (c9_temp_file_cleanup _ FileType.image).1 rfl rfl
  · exact (c9_temp_file_cleanup _ FileType.video).2.1 rfl rfl

namespace YouTubeService

/-!
Embedding of `YouTubeService` (`bot/services/youtube_service.py`) and the
number formatting shared in shape with `TMDBService._format_currency`.
-/

/-- One-decimal rendering of `n / d`, as CPython renders `f"{n/d:.1f}"`:
round to nearest with ties to even, modelled exactly on the rationals (the
double-rounding artifacts of binary floats are abstracted away; all claim
instances are exact). -/
def oneDecimalStr (n d : Nat) : String :=
  let t := 10 * n
  let q := t / d
  let r := t % d
  let rounded :=
    if 2 * r < d then q
    else if d < 2 * r then q + 1
    else if q % 2 = 0 then q else q + 1
  toString (rounded / 10) ++ "." ++ toString (rounded % 10)

/-- `_format_number` applied to an already-parsed non-negative integer. -/
def formatNumber (num : Nat) : String :=
  if 1000000000 ≤ num then oneDecimalStr num 1000000000 ++ "B"
  else if 1000000 ≤ num then oneDecimalStr num 1000000 ++ "M"
  else if 1000 ≤ num then oneDecimalStr num 1000 ++ "K"
  else toString num

/-- Python `int(s)` on the plain decimal strings the upstream statistics
carry (sign/whitespace forms do not occur here); a parse failure is the
`ValueError` branch. -/
def pyParseNat (s : String) : Option Nat :=
  if s.data ≠ [] ∧ s.data.all Char.isDigit then
    some (s.data.foldl (fun acc c => 10 * acc + (c.toNat - 48)) 0)
  else none

/-- `_format_number` as written: parse the string, format the number, and
return "0" when `int()` raises. -/
def formatNumberStr (numStr : String) : String :=
  match pyParseNat numStr with
  | some n => formatNumber n
  | none => "0"

end YouTubeService

namespace TMDBService

/-- `_format_currency` (`bot/services/tmdb_service.py`): same thresholds
with a dollar prefix; below 1000, `f"${amount:,}"` prints the plain number
(no grouping separator appears below 1000). -/
def formatCurrency (amount : Nat) : String :=
  if 1000000000 ≤ amount then "$" ++ YouTubeService.oneDecimalStr amount 1000000000 ++ "B"
  else if 1000000 ≤ amount then "$" ++ YouTubeService.oneDecimalStr amount 1000000 ++ "M"
  else if 1000 ≤ amount then "$" ++ YouTubeService.oneDecimalStr amount 1000 ++ "K"
  else "$" ++ toString amount

end TMDBService

open YouTubeService TMDBService in
/-- C6: the number formatter uses the fixed thresholds 1e9/1e6/1e3, renders
the selected branch with a one-decimal suffix B/M/K, renders numbers below
1000 plainly, and in particular maps 950, 1500, 2300000 and 1200000000 to
"950", "1.5K", "2.3M" and "1.2B"; the currency formatter uses the same
thresholds and suffixes. -/
theorem c6_number_formatting (n : Nat) :
    (1000000000 ≤ n → formatNumber n = oneDecimalStr n 1000000000 ++ "B") ∧
    (1000000 ≤ n → n < 1000000000 → formatNumber n = oneDecimalStr n 1000000 ++ "M") ∧
    (1000 ≤ n → n < 1000000 → formatNumber n = oneDecimalStr n 1000 ++ "K") ∧
    (n < 1000 → formatNumber n = toString n) ∧
    formatNumber 950 = "950" ∧
    formatNumber 1500 = "1.5K" ∧
    formatNumber 2300000 = "2.3M" ∧
    formatNumber 1200000000 = "1.2B" ∧
    (1000000000 ≤ n → formatCurrency n = "$" ++ oneDecimalStr n 1000000000 ++ "B") ∧
    (1000000 ≤ n → n < 1000000000 → formatCurrency n = "$" ++ oneDecimalStr n 1000000 ++ "M") ∧
    (1000 ≤ n → n < 1000000 → formatCurrency n = "$" ++ oneDecimalStr n 1000 ++ "K") := by
  refine ⟨?_, ?_, ?_, ?_, by decide, by decide, by decide, by decide, ?_, ?_, ?_⟩
  · intro h
    unfold formatNumber
    rw [if_pos h]
  · intro h1 h2
    unfold formatNumber
    rw [if_neg (by omega), if_pos h1]
  · intro h1 h2
    unfold formatNumber
    rw [if_neg (by omega), if_neg (by omega), if_pos h1]
  · intro h
    unfold formatNumber
    rw [if_neg (by omega), if_neg (by omega), if_neg (by omega)]
  · intro h
    unfold formatCurrency
    rw [if_pos h]
  · intro h1 h2
    unfold formatCurrency
    rw [if_neg (by omega), if_pos h1]
  · intro h1 h2
    unfold formatCurrency
    rw [if_neg (by omega), if_neg (by omega), if_pos h1]

open YouTubeService TMDBService in
/-- Witness for C6: each threshold branch of both formatters instantiated
at a concrete count. -/
theorem c6_number_formatting_witness :
    formatNumber 1200000000 = oneDecimalStr 1200000000 1000000000 ++ "B" ∧
    formatNumber 2300000 = oneDecimalStr 2300000 1000000 ++ "M" ∧
    formatNumber 1500 = oneDecimalStr 1500 1000 ++ "K" ∧
    formatNumber 950 = toString 950 ∧
    formatCurrency 1200000000 = "$" ++ oneDecimalStr 1200000000 1000000000 ++ "B" ∧
    formatCurrency 2300000 = "$" ++ oneDecimalStr 2300000 1000000 ++ "M" ∧
    formatCurrency 1500 = "$" ++ oneDecimalStr 1500 1000 ++ "K" := by
  refine ⟨?_, ?_, ?_, ?_, ?_, ?_, ?_⟩
  · exact (c6_number_formatting 1200000000).1 (by norm_num)
  · exact (c6_number_formatting 2300000).2.1 (by norm_num) (by norm_num)
  · exact (c6_number_formatting 1500).2.2.1 (by norm_num) (by norm_num)
  · exact (c6_number_formatting 950).2.2.2.1 (by norm_num)
  · exact (c6_number_formatting 1200000000).2.2.2.2.2.2.2.2.1 (by norm_num)
  · exact (c6_number_formatting 2300000).2.2.2.2.2.2.2.2.2.1 (by norm_num) (by norm_num)
  · exact (c6_number_formatting 1500).2.2.2.2.2.2.2.2.2.2 (by norm_num) (by norm_num)

namespace YouTubeService

/-- A search item: `item['id']['videoId']` and the `snippet` fields the code
indexes directly; `none` models the key missing from the upstream JSON
(a direct index then raises `KeyError`). -/
structure Snippet where
  title : Option String
  channelTitle : Option String
  description : Option String
  publishedAt : Option String
  thumbnailMediumUrl : Option String
deriving DecidableEq

structure SearchItem where
  videoId : Option String
  snippet : Option Snippet
deriving DecidableEq

/-- The search response body; `items = none` models `'items' not in
search_data`. -/
structure SearchData where
  items : Option (List SearchItem)
deriving DecidableEq

/-- One statistics item; the statistics fields are read with
`stats.get(key, '0')`, so `none` (missing) falls back to "0". -/
structure StatsItem where
  id : String
  viewCount : Option String
  likeCount : Option String
  commentCount : Option String
deriving DecidableEq

structure StatsData where
  items : Option (List StatsItem)
deriving DecidableEq

/-- The flat record `search_videos` builds per item. -/
structure VideoInfo where
  video_id : String
  title : String
  channel : String
  description : String
  published_at : String
  thumbnail : String
  views : String
  likes : String
  comments : String
deriving DecidableEq

/-- Combine a list of fallible lookups: `none` anywhere models the first
`KeyError` aborting the comprehension/loop. -/
def allSome {α : Type} : List (Option α) → Option (List α)
  | [] => some []
  | none :: _ => none
  | some a :: rest => (allSome rest).map (fun l => a :: l)

/-- Build one `video_info` dict: the id and the five snippet fields are
indexed directly (missing means `KeyError`, i.e. `none`); the statistics are
looked up by id with `{}` fallback and read with `.get(key, '0')`. -/
def buildVideo (item : SearchItem) (statsItems : List StatsItem) : Option VideoInfo :=
  match item with
  | ⟨some vid, some ⟨some ti, some ch, some de, some pu, some th⟩⟩ =>
    let stats := statsItems.find? (fun s => s.id == vid)
    some ⟨vid, ti, ch,
      (if de.length > 200 then pySlice de 200 ++ "..." else de), pu, th,
      formatNumberStr ((stats.bind StatsItem.viewCount).getD "0"),
      formatNumberStr ((stats.bind StatsItem.likeCount).getD "0"),
      formatNumberStr ((stats.bind StatsItem.commentCount).getD "0")⟩
  | _ => none

/-- `search_videos`: the two HTTP calls are outcome parameters (`none`
models a `requests.RequestException`, which covers network errors and the
`raise_for_status` of a non-success status and becomes the typed
"Failed to search YouTube" failure); any `KeyError` while parsing becomes
the typed "YouTube search failed" failure. -/
def search_videos (searchCall : Option SearchData) (statsCall : Option StatsData) :
    Except String (List VideoInfo) :=
  match searchCall with
  | none => Except.error "Failed to search YouTube"
  | some sd =>
    match sd.items with
    | none => Except.ok []
    | some items =>
      if (items.map SearchItem.videoId).all Option.isSome then
        match statsCall with
        | none => Except.error "Failed to search YouTube"
        | some stats =>
          match allSome (items.map (fun it => buildVideo it (stats.items.getD []))) with
          | some vids => Except.ok vids
          | none => Except.error "YouTube search failed"
      else Except.error "YouTube search failed"

/-- Number of parsed records on the success path. -/
def okLength (r : Except String (List VideoInfo)) : Nat :=
  match r with
  | Except.ok l => l.length
  | Except.error _ => 0

/-- A search item with every indexed field present. -/
def fullItem (vid : String) : SearchItem :=
  ⟨some vid, some ⟨some "T", some "C", some "D", some "P", some "U"⟩⟩

end YouTubeService

/-- `allSome` succeeds with as many values as it was given attempts. -/
theorem allSome_length {α : Type} (l : List (Option α)) (out : List α)
    (h : YouTubeService.allSome l = some out) : out.length = l.length := by
  induction l generalizing out with
  | nil =>
    simp [YouTubeService.allSome] at h
    simp [← h]
  | cons a rest ih =>
    cases a with
    | none => simp [YouTubeService.allSome] at h
    | some v =>
      simp only [YouTubeService.allSome, Option.map_eq_some'] at h
      obtain ⟨l2, hl2, hout⟩ := h
      simp [← hout, ih l2 hl2]

namespace TMDBService

/-!
Embedding of `TMDBService.search_movie` and `_format_movie_data`
(`bot/services/tmdb_service.py`).  Upstream floats (`vote_average`,
`popularity`) are modelled as rationals; `round(x, 1)` is `pyRound1`.
-/

/-- CPython `round` to an integer: nearest, ties to even. -/
def roundHalfEvenZ (q : ℚ) : ℤ :=
  let f := ⌊q⌋
  let r := q - f
  if r < 1/2 then f
  else if 1/2 < r then f + 1
  else if f % 2 = 0 then f else f + 1

/-- CPython `round(x, 1)` on the rational model. -/
def pyRound1 (q : ℚ) : ℚ := (roundHalfEvenZ (10 * q) : ℚ) / 10

/-- A genre object; `name = none` models the key missing (`genre['name']`
then raises). -/
structure Genre where
  name : Option String
deriving DecidableEq

structure CastMember where
  name : Option String
deriving DecidableEq

structure CrewMember where
  job : Option String
  name : Option String
deriving DecidableEq

structure Company where
  name : Option String
deriving DecidableEq

structure Credits where
  cast : Option (List CastMember)
  crew : Option (List CrewMember)
deriving DecidableEq

/-- The details response body; every field the formatter reads with `.get`,
`none` modelling a missing key. -/
structure MovieData where
  title : Option String
  release_date : Option String
  vote_average : Option ℚ
  runtime : Option Nat
  genres : Option (List Genre)
  overview : Option String
  poster_path : Option String
  credits : Option Credits
  production_companies : Option (List Company)
  budget : Option Nat
  revenue : Option Nat
  popularity : Option ℚ
  vote_count : Option Nat

/-- The clean record `_format_movie_data` returns. -/
structure MovieInfo where
  title : String
  year : String
  release_date : String
  rating : ℚ
  runtime : String
  genres : List String
  overview : String
  poster_url : Option String
  cast : List String
  director : String
  production_companies : List String
  budget : String
  revenue : String
  popularity : ℚ
  vote_count : Nat
deriving DecidableEq

/-- The fixed record returned by the formatter's `except` branch. -/
def errorMovieInfo : MovieInfo :=
  ⟨"Error formatting movie data", "Unknown", "Unknown", 0, "Unknown", [],
    "Unable to retrieve movie information.", none, [], "Unknown", [],
    "Unknown", "Unknown", 0, 0⟩

def IMAGE_BASE_URL : String := "https://image.tmdb.org/t/p/w500"

/-- Body of `_format_movie_data` inside the `try`: `.get` defaults for the
top-level fields, direct indexing (fallible, `Option`) for the `name` keys
of genres, the first five cast members, the first matching director and the
first three production companies. -/
def formatMovieDataCore (m : MovieData) : Option MovieInfo :=
  let title := m.title.getD "Unknown Title"
  let releaseDate := m.release_date.getD ""
  let year := if releaseDate ≠ ""
    then String.mk (releaseDate.data.takeWhile (fun c => decide (c ≠ '-')))
    else "Unknown"
  let rating := m.vote_average.getD 0
  let runtimeN := m.runtime.getD 0
  let overview := m.overview.getD "No overview available."
  let posterUrl := match m.poster_path with
    | some p => if p ≠ "" then some (IMAGE_BASE_URL ++ p) else none
    | none => none
  let genreNames := YouTubeService.allSome ((m.genres.getD []).map Genre.name)
  let castNames := match m.credits with
    | none => some []
    | some cr =>
      match cr.cast with
      | none => some []
      | some cs => YouTubeService.allSome ((cs.take 5).map CastMember.name)
  let director := match m.credits with
    | none => some "Unknown"
    | some cr =>
      match cr.crew with
      | none => some "Unknown"
      | some crewList =>
        match crewList.find? (fun c => c.job == some "Director") with
        | none => some "Unknown"
        | some c => c.name
  let companyNames :=
    YouTubeService.allSome (((m.production_companies.getD []).take 3).map Company.name)
  let budgetN := m.budget.getD 0
  let revenueN := m.revenue.getD 0
  match genreNames, castNames, director, companyNames with
  | some gs, some cs, some dir, some ps =>
    some ⟨title, year,
      (if releaseDate ≠ "" then releaseDate else "Unknown"),
      pyRound1 rating,
      (if runtimeN ≠ 0 then toString runtimeN else "Unknown"),
      gs, overview, posterUrl, cs, dir, ps,
      (if budgetN ≠ 0 then formatCurrency budgetN else "Unknown"),
      (if revenueN ≠ 0 then formatCurrency revenueN else "Unknown"),
      pyRound1 (m.popularity.getD 0),
      m.vote_count.getD 0⟩
  | _, _, _, _ => none

/-- `_format_movie_data`: total — any `KeyError` inside the `try` is caught
and the fixed error record is returned, so a missing upstream field never
propagates past this formatter. -/
def formatMovieData (m : MovieData) : MovieInfo :=
  match formatMovieDataCore m with
  | some info => info
  | none => errorMovieInfo

/-- One search result; `id = none` models `movie['id']` missing. -/
structure TMDBSearchEntry where
  id : Option Nat
deriving DecidableEq

structure TMDBSearchData where
  results : Option (List TMDBSearchEntry)

/-- `search_movie`: the two HTTP calls are outcome parameters (`none` models
`requests.RequestException` as in the YouTube adapter); a missing or empty
result list returns `none`; only the head of the result list is consulted. -/
def search_movie (searchCall : Option TMDBSearchData) (detailsCall : Option MovieData) :
    Except String (Option MovieInfo) :=
  match searchCall with
  | none => Except.error "Failed to search movies"
  | some sd =>
    match sd.results with
    | none => Except.ok none
    | some [] => Except.ok none
    | some (first :: _) =>
      match first.id with
      | none => Except.error "Movie search failed"
      | some _ =>
        match detailsCall with
        | none => Except.error "Failed to search movies"
        | some data => Except.ok (some (formatMovieData data))

/-- A details response with every key missing. -/
def emptyMovieData : MovieData :=
  ⟨none, none, none, none, none, none, none, none, none, none, none, none, none⟩

/-- The record the formatter produces from an all-missing response: every
field filled from its explicit default. -/
def defaultMovieInfo : MovieInfo :=
  ⟨"Unknown Title", "Unknown", "Unknown", 0, "Unknown", [],
    "No overview available.", none, [], "Unknown", [], "Unknown", "Unknown",
    0, 0⟩

end TMDBService

namespace TMDBService

/-- A details response whose only flaw is one genre object without a
`name` key. -/
def genreMissingNameData : MovieData :=
  ⟨none, none, none, none, some [⟨none⟩], none, none, none, none, none,
    none, none, none⟩

end TMDBService

open YouTubeService in
/-- C8 counterexample: the YouTube adapter violates the claim twice at
concrete inputs: (a) an item whose snippet lacks the `title` key makes
`search_videos` raise its typed failure to the caller — a missing upstream
field does propagate a fault; (b) with two complete items upstream it
parses and returns two records, not only the first/top result. -/
theorem c8_youtube_counterexample :
    search_videos
      (some ⟨some [⟨some "v1", some ⟨none, some "c", some "d", some "p", some "u"⟩⟩]⟩)
      (some ⟨some []⟩) = Except.error "YouTube search failed" ∧
    okLength (search_videos (some ⟨some [fullItem "v1", fullItem "v2"]⟩)
      (some ⟨some []⟩)) = 2 := by
  constructor <;> rfl

open YouTubeService TMDBService in
/-- C8 (amended): both adapters turn a network error or non-success status
into a typed failure.  The TMDB adapter parses only the first search result,
and its formatter is total: every `.get` field has an explicit default (an
all-missing response yields the default-filled record) and any direct-index
`KeyError` is caught, yielding the fixed error record — a missing field
never propagates past it.  The YouTube adapter parses every returned item
(one output record per upstream item on success), applies explicit defaults
only to the statistics fields, and converts a missing id/snippet field into
its typed failure to the caller. -/
theorem c8_adapters_amended :
    (∀ dc, search_movie none dc = Except.error "Failed to search movies") ∧
    (∀ stc, search_videos none stc = Except.error "Failed to search YouTube") ∧
    (∀ (first : TMDBSearchEntry) rest rest2 dc,
      search_movie (some ⟨some (first :: rest)⟩) dc =
        search_movie (some ⟨some (first :: rest2)⟩) dc) ∧
    formatMovieData emptyMovieData = defaultMovieInfo ∧
    formatMovieData genreMissingNameData = errorMovieInfo ∧
    (∀ items stats vids,
      search_videos (some ⟨some items⟩) (some stats) = Except.ok vids →
      vids.length = items.length) ∧
    (∀ v stc, search_videos (some ⟨some [⟨some v, none⟩]⟩) (some stc) =
      Except.error "YouTube search failed") ∧
    search_videos (some ⟨some [fullItem "v"]⟩) (some ⟨some []⟩) =
      Except.ok [⟨"v", "T", "C", "D", "P", "U", "0", "0", "0"⟩] := by
  have h0 : pyRound1 0 = 0 := by
    unfold pyRound1 roundHalfEvenZ
    norm_num
  refine ⟨fun dc => rfl, fun stc => rfl, fun first rest rest2 dc => rfl, ?_, rfl,
    ?_, fun v stc => rfl, rfl⟩
  · show (match formatMovieDataCore emptyMovieData with
      | some info => info
      | none => errorMovieInfo) = defaultMovieInfo
    have hcore : formatMovieDataCore emptyMovieData =
        some ⟨"Unknown Title", "Unknown", "Unknown", pyRound1 0, "Unknown", [],
          "No overview available.", none, [], "Unknown", [], "Unknown",
          "Unknown", pyRound1 0, 0⟩ := rfl
    rw [hcore, h0]
    rfl
  · intro items stats vids h
    simp only [search_videos] at h
    by_cases hall : ((items.map SearchItem.videoId).all Option.isSome) = true
    · rw [if_pos hall] at h
      cases hm : allSome (items.map (fun it => buildVideo it (stats.items.getD []))) with
      | none => rw [hm] at h; exact absurd h (by simp)
      | some out =>
        rw [hm] at h
        have hvo : out = vids := by
          have := (Except.ok.injEq (ε := String) out vids).mp h
          exact this
        rw [← hvo, allSome_length _ _ hm, List.length_map]
    · rw [if_neg hall] at h
      exact absurd h (by simp)

open YouTubeService in
/-- Witness for C8 (amended): the one-record success run instantiates the
records-per-item conjunct at a concrete upstream response. -/
theorem c8_adapters_amended_witness :
    ([(⟨"v", "T", "C", "D", "P", "U", "0", "0", "0"⟩ : VideoInfo)].length =
      [fullItem "v"].length) :=
  c8_adapters_amended.2.2.2.2.2.1 [fullItem "v"] ⟨some []⟩
    [⟨"v", "T", "C", "D", "P", "U", "0", "0", "0"⟩] rfl
